import Mathlib

/-!
Verification of the Rpi-mp3 repository (three Python variants:
mainprogram.py, mainprogram2.py, mainprogram3.py) against its
natural-language specification.

Shallow embedding conventions:
- An MPD `status()` dictionary is embedded as the `Status` structure,
  holding only the keys the button handlers read.  Python floats
  (`elapsed`, song `time`) are embedded as rationals; the handlers only
  add, subtract and compare them.  `status.get('song', 0)` is embedded as
  `Option Nat` with `.getD 0`.
- A button handler is embedded as a function from its inputs to the list
  of mutating MPD commands it issues, in order.  Query calls
  (`status()`, `currentsong()`, `ping()`) and display rendering are not
  commands.
- Handlers that read the clock (`time.time()`) are embedded with the
  clock readings as explicit arguments; all readings within one handler
  invocation are taken at a single instant `now` (the calls are
  microseconds apart in the source).
- Exception-raising backend calls relevant to the reconnect logic are
  embedded with an explicit success flag per call.
-/

/-- MPD transport state, the `state` key of `status()`:
`play`, `pause` or `stop`. -/
inductive PlayState
  | play
  | pause
  | stop
deriving DecidableEq, Repr

/-- The slice of the MPD `status()` dictionary the handlers read:
`state`, `song` (current track index, possibly absent), `playlistlength`,
and `elapsed` (seconds into the current track, default 0). -/
structure Status where
  state : PlayState
  song : Option Nat
  playlistlength : Nat
  elapsed : ℚ
deriving DecidableEq, Repr

/-- Mutating MPD client commands the three programs issue.
`pauseArg b` is `client.pause(b)` (1 pauses, 0 unpauses);
`pauseToggle` is `client.pause()` with no argument;
`playCmd` is `client.play()` with no argument;
`seekcur p` is `client.seekcur(p)` (absolute seek in the current track). -/
inductive Cmd
  | playCmd
  | pauseArg (b : Nat)
  | pauseToggle
  | next
  | previous
  | seekcur (pos : ℚ)
deriving DecidableEq, Repr

namespace Mainprogram3

/-- `MP3Player.handle_play_pause` (mainprogram3.py lines 200-222):
returns the mutating MPD commands issued for one press, given the
fetched status. -/
def handle_play_pause (status : Status) : List Cmd :=
  if status.playlistlength = 0 then []
  else if status.state = PlayState.play then [Cmd.pauseArg 1]
  else [Cmd.pauseArg 0]

/-- `MP3Player.handle_prev` (mainprogram3.py lines 224-258). -/
def handle_prev (status : Status) : List Cmd :=
  if status.playlistlength = 0 then []
  else if status.state = PlayState.play then
    let current_time := status.elapsed
    if current_time > 15 then [Cmd.seekcur (current_time - 15)]
    else [Cmd.seekcur 0]
  else
    let current_song := status.song.getD 0
    if current_song > 0 then [Cmd.previous, Cmd.pauseArg 1]
    else []

/-- `MP3Player.handle_next` (mainprogram3.py lines 260-292). -/
def handle_next (status : Status) : List Cmd :=
  if status.playlistlength = 0 then []
  else if status.state = PlayState.play then
    [Cmd.seekcur (status.elapsed + 15)]
  else
    let current_song := status.song.getD 0
    if (current_song : ℤ) < (status.playlistlength : ℤ) - 1 then
      [Cmd.next, Cmd.pauseArg 1]
    else []

/-- Outcome of the connection-management code: either the program
continues, or the process terminates via `exit(code)`. -/
inductive ConnOutcome
  | ok
  | exited (code : Nat)
deriving DecidableEq, Repr

/-- `MP3Player.connect_mpd` (mainprogram3.py lines 68-81): one
`client.connect` attempt; on failure the error is displayed and the
process calls `exit(1)`.  `connectOk` is whether the connect call
succeeds. -/
def connect_mpd (connectOk : Bool) : ConnOutcome :=
  if connectOk then ConnOutcome.ok else ConnOutcome.exited 1

/-- `MP3Player.check_mpd_connection` (mainprogram3.py lines 314-324):
pings; on failure disconnects and calls `connect_mpd` (whose own failure
exits the process).  `pingOk` is whether the ping succeeds,
`reconnectOk` whether the reconnect attempt succeeds. -/
def check_mpd_connection (pingOk reconnectOk : Bool) : ConnOutcome :=
  if pingOk then ConnOutcome.ok else connect_mpd reconnectOk

end Mainprogram3

/-- Physical buttons of the front panel. -/
inductive Button
  | play
  | prev
  | next
deriving DecidableEq, Repr

namespace Mainprogram

/-- `DEBOUNCE_MS` of mainprogram.py (line 28). -/
def DEBOUNCE_MS : ℚ := 200

/-- `ButtonHandler` mutable state of mainprogram.py: the single
`self.last_press` timestamp shared by all three button callbacks. -/
structure HandlerState where
  last_press : ℚ
deriving DecidableEq, Repr

/-- `ButtonHandler._debounce` (mainprogram.py lines 187-192): returns
`(true, unchanged state)` when the edge is dropped (too soon after
`last_press`), and `(false, state with last_press := now)` when the edge
is accepted. -/
def debounce (st : HandlerState) (now : ℚ) : Bool × HandlerState :=
  if now - st.last_press < DEBOUNCE_MS / 1000 then (true, st)
  else (false, { last_press := now })

/-- `ButtonHandler.handle_playpause` (mainprogram.py lines 148-160):
returns the updated handler state and the mutating MPD commands issued. -/
def handle_playpause (st : HandlerState) (status : Status) (now : ℚ) :
    HandlerState × List Cmd :=
  match debounce st now with
  | (true, st1) => (st1, [])
  | (false, st1) =>
    if status.state = PlayState.play then (st1, [Cmd.pauseArg 1])
    else (st1, [Cmd.playCmd])

/-- `ButtonHandler.handle_skip` (mainprogram.py lines 162-185).
`songTime` is `float(currentsong().get('time', 0))`, the duration of the
current track.  All `time.time()` readings of the invocation are taken
at the single instant `now`; in particular the branch test
`time.time() - self.last_press > 2` reads the `last_press` that
`_debounce` has just set. -/
def handle_skip (st : HandlerState) (status : Status) (songTime : ℚ)
    (now : ℚ) : HandlerState × List Cmd :=
  match debounce st now with
  | (true, st1) => (st1, [])
  | (false, st1) =>
    let current_pos := status.song.getD 0
    let total_tracks := status.playlistlength
    if now - st1.last_press > 2 then
      if songTime > 0 then
        (st1, [Cmd.seekcur (min (status.elapsed + 15) songTime)])
      else (st1, [])
    else
      if (current_pos : ℤ) < (total_tracks : ℤ) - 1 then (st1, [Cmd.next])
      else (st1, [])

/-- Button wiring of `main` (mainprogram.py lines 223-228): the play
button triggers `handle_playpause`; BOTH the prev and next buttons
trigger `handle_skip`. -/
def pressStep (st : HandlerState) (b : Button) (status : Status)
    (songTime : ℚ) (now : ℚ) : HandlerState × List Cmd :=
  match b with
  | Button.play => handle_playpause st status now
  | Button.prev => handle_skip st status songTime now
  | Button.next => handle_skip st status songTime now

end Mainprogram

namespace Mainprogram2

/-- `DEBOUNCE_MS` of mainprogram2.py (line 28). -/
def DEBOUNCE_MS : ℚ := 300

/-- `ButtonHandler` mutable state of mainprogram2.py: the single
`self.last` timestamp shared by all three button callbacks. -/
structure HandlerState where
  last : ℚ
deriving DecidableEq, Repr

/-- `ButtonHandler.debounce` (mainprogram2.py lines 120-125): returns
`(true, unchanged state)` when the edge is dropped and
`(false, state with last := now)` when it is accepted. -/
def debounce (st : HandlerState) (now : ℚ) : Bool × HandlerState :=
  if now - st.last < DEBOUNCE_MS / 1000 then (true, st)
  else (false, { last := now })

/-- `ButtonHandler.on_play` (mainprogram2.py lines 127-134):
`client.pause()` (no argument, a toggle) when playing, else
`client.play()`. -/
def on_play (st : HandlerState) (status : Status) (now : ℚ) :
    HandlerState × List Cmd :=
  match debounce st now with
  | (true, st1) => (st1, [])
  | (false, st1) =>
    if status.state = PlayState.play then (st1, [Cmd.pauseToggle])
    else (st1, [Cmd.playCmd])

/-- `ButtonHandler.on_next` (mainprogram2.py lines 136-139): issues
`client.next()` unconditionally once the edge is accepted — the status
is never consulted. -/
def on_next (st : HandlerState) (status : Status) (now : ℚ) :
    HandlerState × List Cmd :=
  match debounce st now with
  | (true, st1) => (st1, [])
  | (false, st1) => (st1, [Cmd.next])

/-- `ButtonHandler.on_prev` (mainprogram2.py lines 141-144): issues
`client.previous()` unconditionally once the edge is accepted. -/
def on_prev (st : HandlerState) (status : Status) (now : ℚ) :
    HandlerState × List Cmd :=
  match debounce st now with
  | (true, st1) => (st1, [])
  | (false, st1) => (st1, [Cmd.previous])

/-- Button wiring of `main` (mainprogram2.py lines 163-165). -/
def pressStep (st : HandlerState) (b : Button) (status : Status)
    (now : ℚ) : HandlerState × List Cmd :=
  match b with
  | Button.play => on_play st status now
  | Button.prev => on_prev st status now
  | Button.next => on_next st status now

end Mainprogram2

/-- C1 counterexample: in mainprogram2, an accepted Next press on an
empty queue (playlistlength 0) issues the `next` command to the backend,
so it is not the case that every program resolves every button to no-op
on an empty queue. -/
theorem c1_counterexample :
    (Mainprogram2.on_next ⟨0⟩ ⟨PlayState.stop, none, 0, 0⟩ 10).2
        = [Cmd.next] ∧
    (Mainprogram2.on_next ⟨0⟩ ⟨PlayState.stop, none, 0, 0⟩ 10).2 ≠ [] := by
  constructor
  · norm_num [Mainprogram2.on_next, Mainprogram2.debounce,
      Mainprogram2.DEBOUNCE_MS]
  · norm_num [Mainprogram2.on_next, Mainprogram2.debounce,
      Mainprogram2.DEBOUNCE_MS]

/-- C1 amended: in mainprogram3 every button handler issues no backend
command when the playlist length is 0; in mainprogram2, however, an
accepted Next press issues the `next` command and an accepted Prev press
the `previous` command regardless of the snapshot, even on an empty
queue. -/
theorem c1_amended :
    ∀ s : Status, s.playlistlength = 0 →
    Mainprogram3.handle_play_pause s = [] ∧
    Mainprogram3.handle_prev s = [] ∧
    Mainprogram3.handle_next s = [] ∧
    ∀ (st : Mainprogram2.HandlerState) (now : ℚ),
      (Mainprogram2.debounce st now).1 = false →
      (Mainprogram2.on_next st s now).2 = [Cmd.next] ∧
      (Mainprogram2.on_prev st s now).2 = [Cmd.previous] := by
  intro s h
  refine ⟨?_, ?_, ?_, ?_⟩
  · simp [Mainprogram3.handle_play_pause, h]
  · simp [Mainprogram3.handle_prev, h]
  · simp [Mainprogram3.handle_next, h]
  · intro st now hacc
    unfold Mainprogram2.on_next Mainprogram2.on_prev
    unfold Mainprogram2.debounce at hacc ⊢
    by_cases hc : now - st.last < Mainprogram2.DEBOUNCE_MS / 1000
    · rw [if_pos hc] at hacc
      exact absurd hacc (by simp)
    · rw [if_neg hc]
      exact ⟨rfl, rfl⟩

/-- C1 witness: the amended statement instantiated at a concrete empty
snapshot, handler state and edge time. -/
theorem c1_witness :
    Mainprogram3.handle_play_pause ⟨PlayState.stop, none, 0, 0⟩ = [] ∧
    Mainprogram3.handle_prev ⟨PlayState.stop, none, 0, 0⟩ = [] ∧
    Mainprogram3.handle_next ⟨PlayState.stop, none, 0, 0⟩ = [] ∧
    (Mainprogram2.on_next ⟨0⟩ ⟨PlayState.stop, none, 0, 0⟩ 10).2
        = [Cmd.next] ∧
    (Mainprogram2.on_prev ⟨0⟩ ⟨PlayState.stop, none, 0, 0⟩ 10).2
        = [Cmd.previous] := by
  have h := c1_amended ⟨PlayState.stop, none, 0, 0⟩ rfl
  have h2 := h.2.2.2 ⟨0⟩ 10
    (by norm_num [Mainprogram2.debounce, Mainprogram2.DEBOUNCE_MS])
  exact ⟨h.1, h.2.1, h.2.2.1, h2.1, h2.2⟩

/-- C2 counterexample: at the snapshot of the claim (Playing,
elapsed = 50, duration = 60, so remaining = 10 ≤ 15), mainprogram3
issues `seekcur 65` — an unbounded forward seek — and never `next`.  The
handler does not read the track duration at all. -/
theorem c2_counterexample :
    Mainprogram3.handle_next ⟨PlayState.play, some 0, 3, 50⟩
        = [Cmd.seekcur 65] ∧
    Cmd.next ∉ Mainprogram3.handle_next ⟨PlayState.play, some 0, 3, 50⟩ := by
  constructor
  · norm_num [Mainprogram3.handle_next]
  · norm_num [Mainprogram3.handle_next]
    decide

/-- C2 amended: in mainprogram3, pressing Next while Playing with a
non-empty queue always issues an unbounded forward seek to
elapsed + 15, regardless of the track duration and of the remaining
time, and never skips to the next track while playing. -/
theorem c2_amended :
    ∀ s : Status, s.state = PlayState.play → s.playlistlength ≠ 0 →
    Mainprogram3.handle_next s = [Cmd.seekcur (s.elapsed + 15)] ∧
    Cmd.next ∉ Mainprogram3.handle_next s := by
  intro s h1 h2
  constructor
  · simp [Mainprogram3.handle_next, h1, h2]
  · simp [Mainprogram3.handle_next, h1, h2]

/-- C2 witness: the amended statement at the concrete Playing snapshot
with elapsed = 40. -/
theorem c2_witness :
    Mainprogram3.handle_next ⟨PlayState.play, some 0, 3, 40⟩
        = [Cmd.seekcur (40 + 15)] ∧
    Cmd.next ∉ Mainprogram3.handle_next ⟨PlayState.play, some 0, 3, 40⟩ :=
  c2_amended ⟨PlayState.play, some 0, 3, 40⟩ rfl (by norm_num)

/-- C3 counterexample: when the periodic connection check finds the ping
failing and the single reconnect attempt also fails, `connect_mpd` calls
`exit(1)` and the process terminates — contradicting the claim that the
process never exits on a transient backend failure. -/
theorem c3_counterexample :
    Mainprogram3.check_mpd_connection false false
        = Mainprogram3.ConnOutcome.exited 1 := rfl

/-- C3 amended: a failed ping during the periodic connection check
triggers exactly one reconnect attempt and no retry of any failed
operation; if the reconnect succeeds the loop continues, and if it also
fails the process exits with status 1 (a fatal path on a transient
backend failure). -/
theorem c3_amended :
    ∀ pingOk reconnectOk : Bool,
    Mainprogram3.check_mpd_connection pingOk reconnectOk =
      if pingOk then Mainprogram3.ConnOutcome.ok
      else if reconnectOk then Mainprogram3.ConnOutcome.ok
      else Mainprogram3.ConnOutcome.exited 1 := by
  intro p r
  cases p <;> cases r <;> rfl

/-- C4: in mainprogram3, pressing Previous while Playing (non-empty
queue) seeks within the current track: to elapsed - 15 when
elapsed > 15 and to 0 otherwise (so exactly 0 at elapsed = 15), the seek
target is never negative, and no track-changing command is issued while
playing. -/
theorem c4_theorem :
    ∀ s : Status, s.state = PlayState.play → s.playlistlength ≠ 0 →
    Mainprogram3.handle_prev s
        = [Cmd.seekcur (if s.elapsed > 15 then s.elapsed - 15 else 0)] ∧
    (0 ≤ if s.elapsed > 15 then s.elapsed - 15 else 0) ∧
    (s.elapsed = 15 → Mainprogram3.handle_prev s = [Cmd.seekcur 0]) ∧
    Cmd.previous ∉ Mainprogram3.handle_prev s ∧
    Cmd.next ∉ Mainprogram3.handle_prev s := by
  intro s h1 h2
  have hmain : Mainprogram3.handle_prev s
      = [Cmd.seekcur (if s.elapsed > 15 then s.elapsed - 15 else 0)] := by
    unfold Mainprogram3.handle_prev
    by_cases he : s.elapsed > 15 <;> simp [h1, h2, he]
  refine ⟨hmain, ?_, ?_, ?_, ?_⟩
  · by_cases he : s.elapsed > 15
    · rw [if_pos he]; linarith
    · rw [if_neg he]
  · intro h15
    rw [hmain, h15]
    norm_num
  · rw [hmain]
    simp
  · rw [hmain]
    simp

/-- C4 witness: the edge case elapsed = 15 at a concrete snapshot. -/
theorem c4_witness :
    Mainprogram3.handle_prev ⟨PlayState.play, some 1, 3, 15⟩
        = [Cmd.seekcur (if (15 : ℚ) > 15 then 15 - 15 else 0)] ∧
    (0 ≤ if (15 : ℚ) > 15 then (15 : ℚ) - 15 else 0) ∧
    ((15 : ℚ) = 15 →
      Mainprogram3.handle_prev ⟨PlayState.play, some 1, 3, 15⟩
        = [Cmd.seekcur 0]) ∧
    Cmd.previous ∉ Mainprogram3.handle_prev ⟨PlayState.play, some 1, 3, 15⟩ ∧
    Cmd.next ∉ Mainprogram3.handle_prev ⟨PlayState.play, some 1, 3, 15⟩ :=
  c4_theorem ⟨PlayState.play, some 1, 3, 15⟩ rfl (by norm_num)

/-- C5 counterexample: in mainprogram2, an accepted Previous press while
paused at the first track (trackIndex 0) issues the `previous` command
instead of the no-op the claim requires, and with no trailing pause. -/
theorem c5_counterexample :
    (Mainprogram2.on_prev ⟨0⟩ ⟨PlayState.pause, some 0, 3, 0⟩ 10).2
        = [Cmd.previous] ∧
    (Mainprogram2.on_prev ⟨0⟩ ⟨PlayState.pause, some 0, 3, 0⟩ 10).2 ≠ [] := by
  constructor
  · norm_num [Mainprogram2.on_prev, Mainprogram2.debounce,
      Mainprogram2.DEBOUNCE_MS]
  · norm_num [Mainprogram2.on_prev, Mainprogram2.debounce,
      Mainprogram2.DEBOUNCE_MS]

/-- C5 amended: in mainprogram3, when not Playing, Previous issues
`previous` followed by `pause(1)` exactly when the song index is
positive (else nothing), and Next issues `next` followed by `pause(1)`
exactly when the song index is below playlistlength - 1 (else nothing);
the trailing `pause(1)` is the mechanism that keeps the transport
non-playing.  In mainprogram2, an accepted Previous press issues
`previous` and an accepted Next press issues `next` unconditionally,
with no boundary check and no pause. -/
theorem c5_amended :
    ∀ s : Status, s.state ≠ PlayState.play → s.playlistlength ≠ 0 →
    (Mainprogram3.handle_prev s =
      if 0 < s.song.getD 0 then [Cmd.previous, Cmd.pauseArg 1] else []) ∧
    (Mainprogram3.handle_next s =
      if (s.song.getD 0 : ℤ) < (s.playlistlength : ℤ) - 1
      then [Cmd.next, Cmd.pauseArg 1] else []) ∧
    ∀ (st : Mainprogram2.HandlerState) (now : ℚ),
      (Mainprogram2.debounce st now).1 = false →
      (Mainprogram2.on_prev st s now).2 = [Cmd.previous] ∧
      (Mainprogram2.on_next st s now).2 = [Cmd.next] := by
  intro s h1 h2
  refine ⟨?_, ?_, ?_⟩
  · unfold Mainprogram3.handle_prev
    by_cases hs : 0 < s.song.getD 0 <;> simp [h1, h2, hs]
  · unfold Mainprogram3.handle_next
    by_cases hs : (s.song.getD 0 : ℤ) < (s.playlistlength : ℤ) - 1 <;>
      simp [h1, h2, hs]
  · intro st now hacc
    unfold Mainprogram2.on_prev Mainprogram2.on_next
    unfold Mainprogram2.debounce at hacc ⊢
    by_cases hc : now - st.last < Mainprogram2.DEBOUNCE_MS / 1000
    · rw [if_pos hc] at hacc
      exact absurd hacc (by simp)
    · rw [if_neg hc]
      exact ⟨rfl, rfl⟩

/-- C5 witness: the amended statement at two concrete paused snapshots
of a three-track queue — the middle track, and the last track (where
mainprogram3 issues nothing for Next while an accepted mainprogram2
`on_next` still issues `next`). -/
theorem c5_witness :
    (Mainprogram3.handle_prev ⟨PlayState.pause, some 1, 3, 0⟩ =
      if 0 < (some 1 : Option Nat).getD 0
      then [Cmd.previous, Cmd.pauseArg 1] else []) ∧
    (Mainprogram3.handle_next ⟨PlayState.pause, some 1, 3, 0⟩ =
      if ((some 1 : Option Nat).getD 0 : ℤ) < (3 : ℤ) - 1
      then [Cmd.next, Cmd.pauseArg 1] else []) ∧
    (Mainprogram2.on_prev ⟨0⟩ ⟨PlayState.pause, some 1, 3, 0⟩ 10).2
        = [Cmd.previous] ∧
    (Mainprogram3.handle_next ⟨PlayState.pause, some 2, 3, 0⟩ =
      if ((some 2 : Option Nat).getD 0 : ℤ) < (3 : ℤ) - 1
      then [Cmd.next, Cmd.pauseArg 1] else []) ∧
    (Mainprogram2.on_next ⟨0⟩ ⟨PlayState.pause, some 2, 3, 0⟩ 10).2
        = [Cmd.next] := by
  have h := c5_amended ⟨PlayState.pause, some 1, 3, 0⟩ (by simp) (by norm_num)
  have hl := c5_amended ⟨PlayState.pause, some 2, 3, 0⟩ (by simp)
    (by norm_num)
  exact ⟨h.1, h.2.1,
    (h.2.2 ⟨0⟩ 10
      (by norm_num [Mainprogram2.debounce, Mainprogram2.DEBOUNCE_MS])).1,
    hl.2.1,
    (hl.2.2 ⟨0⟩ 10
      (by norm_num [Mainprogram2.debounce, Mainprogram2.DEBOUNCE_MS])).2⟩

/-- C6 counterexample: in mainprogram3, PlayPause from Stopped on a
non-empty queue issues `pause(0)` (the MPD unpause command), which is a
different backend command from `play` — so the claim that any non-Playing
state leads to a Play command fails for mainprogram3. -/
theorem c6_counterexample :
    Mainprogram3.handle_play_pause ⟨PlayState.stop, some 0, 2, 0⟩
        = [Cmd.pauseArg 0] ∧
    Cmd.pauseArg 0 ≠ Cmd.playCmd := by
  constructor
  · simp [Mainprogram3.handle_play_pause]
  · decide

/-- C6 amended: for every non-empty-queue snapshot, mainprogram issues
`pause(1)` when Playing and the `play` command otherwise (in MPD, play
resumes at the current track, defaulting to track 0); mainprogram3
issues `pause(1)` when Playing and `pause(0)` (unpause, not the play
command) otherwise. -/
theorem c6_amended :
    ∀ s : Status, s.playlistlength ≠ 0 →
    (Mainprogram3.handle_play_pause s =
      if s.state = PlayState.play then [Cmd.pauseArg 1]
      else [Cmd.pauseArg 0]) ∧
    ∀ (st : Mainprogram.HandlerState) (now : ℚ),
      (Mainprogram.debounce st now).1 = false →
      (Mainprogram.handle_playpause st s now).2 =
        if s.state = PlayState.play then [Cmd.pauseArg 1]
        else [Cmd.playCmd] := by
  intro s h
  constructor
  · unfold Mainprogram3.handle_play_pause
    by_cases hs : s.state = PlayState.play <;> simp [h, hs]
  · intro st now hacc
    unfold Mainprogram.handle_playpause
    unfold Mainprogram.debounce at hacc ⊢
    by_cases hc : now - st.last_press < Mainprogram.DEBOUNCE_MS / 1000
    · rw [if_pos hc] at hacc
      exact absurd hacc (by simp)
    · rw [if_neg hc]
      by_cases hs : s.state = PlayState.play <;> simp [hs]

/-- C6 witness: the amended statement at a concrete paused snapshot with
a concrete accepted edge for the mainprogram part. -/
theorem c6_witness :
    (Mainprogram3.handle_play_pause ⟨PlayState.pause, some 0, 2, 0⟩ =
      if PlayState.pause = PlayState.play then [Cmd.pauseArg 1]
      else [Cmd.pauseArg 0]) ∧
    (Mainprogram.handle_playpause ⟨0⟩ ⟨PlayState.pause, some 0, 2, 0⟩ 10).2 =
      if PlayState.pause = PlayState.play then [Cmd.pauseArg 1]
      else [Cmd.playCmd] := by
  have h := c6_amended ⟨PlayState.pause, some 0, 2, 0⟩ (by norm_num)
  exact ⟨h.1,
    h.2 ⟨0⟩ 10
      (by norm_num [Mainprogram.debounce, Mainprogram.DEBOUNCE_MS])⟩

/-- Helper: behaviour of the mainprogram debounce as a function of the
time since the stored timestamp. -/
lemma debounce_spec1 (st : Mainprogram.HandlerState) (now : ℚ) :
    ((Mainprogram.debounce st now).1 = false ↔
        Mainprogram.DEBOUNCE_MS / 1000 ≤ now - st.last_press) ∧
    ((Mainprogram.debounce st now).1 = true →
        (Mainprogram.debounce st now).2 = st) ∧
    ((Mainprogram.debounce st now).1 = false →
        (Mainprogram.debounce st now).2 = ⟨now⟩) := by
  unfold Mainprogram.debounce
  by_cases hc : now - st.last_press < Mainprogram.DEBOUNCE_MS / 1000
  · rw [if_pos hc]
    exact ⟨iff_of_false (by simp) (not_le.mpr hc), fun _ => rfl,
      fun h => absurd h (by simp)⟩
  · rw [if_neg hc]
    exact ⟨iff_of_true rfl (not_lt.mp hc), fun h => absurd h (by simp),
      fun _ => rfl⟩

/-- Helper: behaviour of the mainprogram2 debounce as a function of the
time since the stored timestamp. -/
lemma debounce_spec2 (st : Mainprogram2.HandlerState) (now : ℚ) :
    ((Mainprogram2.debounce st now).1 = false ↔
        Mainprogram2.DEBOUNCE_MS / 1000 ≤ now - st.last) ∧
    ((Mainprogram2.debounce st now).1 = true →
        (Mainprogram2.debounce st now).2 = st) ∧
    ((Mainprogram2.debounce st now).1 = false →
        (Mainprogram2.debounce st now).2 = ⟨now⟩) := by
  unfold Mainprogram2.debounce
  by_cases hc : now - st.last < Mainprogram2.DEBOUNCE_MS / 1000
  · rw [if_pos hc]
    exact ⟨iff_of_false (by simp) (not_le.mpr hc), fun _ => rfl,
      fun h => absurd h (by simp)⟩
  · rw [if_neg hc]
    exact ⟨iff_of_true rfl (not_lt.mp hc), fun h => absurd h (by simp),
      fun _ => rfl⟩

/-- C7: in both mainprogram and mainprogram2, a raw edge at time `now1`
is accepted exactly when `now1 - lastAcceptedAt` is at least the
debounce window (DEBOUNCE_MS / 1000); a dropped edge leaves the stored
timestamp unchanged; and after an accepted edge at `now1`, a second edge
at `now2` within the window is dropped (leaving the timestamp at `now1`)
while a second edge at or beyond the window is accepted — so two edges
within the window yield one accepted press and two edges spaced beyond
it yield two. -/
theorem c7_theorem :
    ∀ last now1 now2 : ℚ,
    ((Mainprogram.debounce ⟨last⟩ now1).1 = false ↔
        Mainprogram.DEBOUNCE_MS / 1000 ≤ now1 - last) ∧
    ((Mainprogram.debounce ⟨last⟩ now1).1 = true →
        (Mainprogram.debounce ⟨last⟩ now1).2 = ⟨last⟩) ∧
    ((Mainprogram.debounce ⟨last⟩ now1).1 = false →
        (Mainprogram.debounce ⟨last⟩ now1).2 = ⟨now1⟩ ∧
        (now2 - now1 < Mainprogram.DEBOUNCE_MS / 1000 →
          (Mainprogram.debounce ⟨now1⟩ now2).1 = true ∧
          (Mainprogram.debounce ⟨now1⟩ now2).2 = ⟨now1⟩) ∧
        (Mainprogram.DEBOUNCE_MS / 1000 ≤ now2 - now1 →
          (Mainprogram.debounce ⟨now1⟩ now2).1 = false)) ∧
    ((Mainprogram2.debounce ⟨last⟩ now1).1 = false ↔
        Mainprogram2.DEBOUNCE_MS / 1000 ≤ now1 - last) ∧
    ((Mainprogram2.debounce ⟨last⟩ now1).1 = true →
        (Mainprogram2.debounce ⟨last⟩ now1).2 = ⟨last⟩) ∧
    ((Mainprogram2.debounce ⟨last⟩ now1).1 = false →
        (Mainprogram2.debounce ⟨last⟩ now1).2 = ⟨now1⟩ ∧
        (now2 - now1 < Mainprogram2.DEBOUNCE_MS / 1000 →
          (Mainprogram2.debounce ⟨now1⟩ now2).1 = true ∧
          (Mainprogram2.debounce ⟨now1⟩ now2).2 = ⟨now1⟩) ∧
        (Mainprogram2.DEBOUNCE_MS / 1000 ≤ now2 - now1 →
          (Mainprogram2.debounce ⟨now1⟩ now2).1 = false)) := by
  intro last now1 now2
  have h1 := debounce_spec1 ⟨last⟩ now1
  have h1b := debounce_spec1 ⟨now1⟩ now2
  have h2 := debounce_spec2 ⟨last⟩ now1
  have h2b := debounce_spec2 ⟨now1⟩ now2
  refine ⟨h1.1, h1.2.1, ?_, h2.1, h2.2.1, ?_⟩
  · intro hacc
    refine ⟨h1.2.2 hacc, ?_, ?_⟩
    · intro hlt
      have hdrop : (Mainprogram.debounce ⟨now1⟩ now2).1 = true := by
        cases hb : (Mainprogram.debounce ⟨now1⟩ now2).1
        · exact absurd (h1b.1.mp hb) (by simpa using not_le.mpr hlt)
        · rfl
      exact ⟨hdrop, h1b.2.1 hdrop⟩
    · intro hge
      exact h1b.1.mpr (by simpa using hge)
  · intro hacc
    refine ⟨h2.2.2 hacc, ?_, ?_⟩
    · intro hlt
      have hdrop : (Mainprogram2.debounce ⟨now1⟩ now2).1 = true := by
        cases hb : (Mainprogram2.debounce ⟨now1⟩ now2).1
        · exact absurd (h2b.1.mp hb) (by simpa using not_le.mpr hlt)
        · rfl
      exact ⟨hdrop, h2b.2.1 hdrop⟩
    · intro hge
      exact h2b.1.mpr (by simpa using hge)

/-- C7 witness: concrete edges at times 0-based: an edge 1 s after the
stored timestamp is accepted in both programs; a second edge 0.1 s
later is dropped and leaves the timestamp; a second edge 1 s later is
accepted. -/
theorem c7_witness :
    (Mainprogram.debounce ⟨0⟩ 1).1 = false ∧
    (Mainprogram.debounce ⟨1⟩ (11 / 10)).1 = true ∧
    (Mainprogram.debounce ⟨1⟩ (11 / 10)).2 = ⟨1⟩ ∧
    (Mainprogram.debounce ⟨1⟩ 2).1 = false ∧
    (Mainprogram2.debounce ⟨0⟩ 1).1 = false ∧
    (Mainprogram2.debounce ⟨1⟩ (11 / 10)).1 = true ∧
    (Mainprogram2.debounce ⟨1⟩ (11 / 10)).2 = ⟨1⟩ ∧
    (Mainprogram2.debounce ⟨1⟩ 2).1 = false := by
  have ha := c7_theorem 0 1 (11 / 10)
  have hb := c7_theorem 0 1 2
  have hacc1 : (Mainprogram.debounce (⟨0⟩ : Mainprogram.HandlerState) 1).1
      = false :=
    ha.1.mpr (by norm_num [Mainprogram.DEBOUNCE_MS])
  have hacc2 : (Mainprogram2.debounce (⟨0⟩ : Mainprogram2.HandlerState) 1).1
      = false :=
    ha.2.2.2.1.mpr (by norm_num [Mainprogram2.DEBOUNCE_MS])
  refine ⟨hacc1, ?_, ?_, ?_, hacc2, ?_, ?_, ?_⟩
  · exact ((ha.2.2.1 hacc1).2.1 (by norm_num [Mainprogram.DEBOUNCE_MS])).1
  · exact ((ha.2.2.1 hacc1).2.1 (by norm_num [Mainprogram.DEBOUNCE_MS])).2
  · exact (hb.2.2.1 hacc1).2.2 (by norm_num [Mainprogram.DEBOUNCE_MS])
  · exact ((ha.2.2.2.2.2 hacc2).2.1
      (by norm_num [Mainprogram2.DEBOUNCE_MS])).1
  · exact ((ha.2.2.2.2.2 hacc2).2.1
      (by norm_num [Mainprogram2.DEBOUNCE_MS])).2
  · exact (hb.2.2.2.2.2 hacc2).2.2 (by norm_num [Mainprogram2.DEBOUNCE_MS])

/-- Helper: commands issued by an accepted mainprogram `handle_skip`
press.  After `_debounce` stores `now`, the long-press test compares
`now` with the freshly stored `last_press`, so it always fails and the
short-press (next-track) branch runs. -/
lemma handle_skip_accepted (st : Mainprogram.HandlerState) (s : Status)
    (songTime now : ℚ) (h : (Mainprogram.debounce st now).1 = false) :
    Mainprogram.handle_skip st s songTime now =
      (⟨now⟩, if (s.song.getD 0 : ℤ) < (s.playlistlength : ℤ) - 1
              then [Cmd.next] else []) := by
  have hc : ¬ now - st.last_press < Mainprogram.DEBOUNCE_MS / 1000 := by
    intro hc
    unfold Mainprogram.debounce at h
    rw [if_pos hc] at h
    exact absurd h (by simp)
  unfold Mainprogram.handle_skip Mainprogram.debounce
  rw [if_neg hc]
  have h2 : ¬ ((now : ℚ) - now > 2) := by norm_num
  simp only [if_neg h2]
  by_cases hs : (s.song.getD 0 : ℤ) < (s.playlistlength : ℤ) - 1 <;>
    simp [hs]

/-- Helper: a dropped mainprogram `handle_skip` press issues nothing and
leaves the handler state unchanged. -/
lemma handle_skip_dropped (st : Mainprogram.HandlerState) (s : Status)
    (songTime now : ℚ) (h : (Mainprogram.debounce st now).1 = true) :
    Mainprogram.handle_skip st s songTime now = (st, []) := by
  have hc : now - st.last_press < Mainprogram.DEBOUNCE_MS / 1000 := by
    by_contra hc
    unfold Mainprogram.debounce at h
    rw [if_neg hc] at h
    exact absurd h (by simp)
  unfold Mainprogram.handle_skip Mainprogram.debounce
  rw [if_pos hc]

/-- C8: in mainprogram, the prev and the next button are both wired to
`handle_skip`; for every handler state, snapshot, track duration and
edge time, `handle_skip` never issues the `previous` command, and every
`seekcur` it issues targets a position at or after the current elapsed
time (given elapsed ≤ duration) — so a press of the Previous button
never sends a previous-track or rewind command to the backend. -/
theorem c8_theorem :
    ∀ (st : Mainprogram.HandlerState) (s : Status) (songTime now : ℚ),
    s.elapsed ≤ songTime →
    Mainprogram.pressStep st Button.prev s songTime now
        = Mainprogram.handle_skip st s songTime now ∧
    Mainprogram.pressStep st Button.next s songTime now
        = Mainprogram.handle_skip st s songTime now ∧
    Cmd.previous ∉ (Mainprogram.handle_skip st s songTime now).2 ∧
    ∀ q : ℚ, Cmd.seekcur q ∈ (Mainprogram.handle_skip st s songTime now).2 →
      s.elapsed ≤ q := by
  intro st s d now _
  refine ⟨rfl, rfl, ?_, ?_⟩
  · cases hb : (Mainprogram.debounce st now).1
    · rw [handle_skip_accepted st s d now hb]
      by_cases hs : (s.song.getD 0 : ℤ) < (s.playlistlength : ℤ) - 1 <;>
        simp [hs]
    · rw [handle_skip_dropped st s d now hb]
      simp
  · intro q hq
    exfalso
    cases hb : (Mainprogram.debounce st now).1
    · rw [handle_skip_accepted st s d now hb] at hq
      by_cases hs : (s.song.getD 0 : ℤ) < (s.playlistlength : ℤ) - 1 <;>
        simp [hs] at hq
    · rw [handle_skip_dropped st s d now hb] at hq
      simp at hq

/-- C8 witness: a concrete accepted press of the Previous button
(wired to `handle_skip`) on a mid-playlist playing snapshot issues no
previous-track command and no rewinding seek. -/
theorem c8_witness :
    Mainprogram.pressStep ⟨0⟩ Button.prev ⟨PlayState.play, some 1, 3, 50⟩
        60 10
      = Mainprogram.handle_skip ⟨0⟩ ⟨PlayState.play, some 1, 3, 50⟩ 60 10 ∧
    Mainprogram.pressStep ⟨0⟩ Button.next ⟨PlayState.play, some 1, 3, 50⟩
        60 10
      = Mainprogram.handle_skip ⟨0⟩ ⟨PlayState.play, some 1, 3, 50⟩ 60 10 ∧
    Cmd.previous ∉
      (Mainprogram.handle_skip ⟨0⟩ ⟨PlayState.play, some 1, 3, 50⟩ 60 10).2 ∧
    ∀ q : ℚ, Cmd.seekcur q ∈
        (Mainprogram.handle_skip ⟨0⟩ ⟨PlayState.play, some 1, 3, 50⟩
          60 10).2 →
      (50 : ℚ) ≤ q :=
  c8_theorem ⟨0⟩ ⟨PlayState.play, some 1, 3, 50⟩ 60 10 (by norm_num)

/-- C10: in mainprogram, the 15-second forward-seek branch of
`handle_skip` is unreachable: `_debounce` stores `now` into `last_press`
immediately before the branch tests `now - last_press > 2`, so the test
is never satisfied, no `seekcur` is ever issued, and every accepted
skip press takes the next-track branch (issuing `next` when not at the
last track and nothing otherwise). -/
theorem c10_theorem :
    ∀ (st : Mainprogram.HandlerState) (s : Status) (songTime now : ℚ),
    (∀ q : ℚ, Cmd.seekcur q ∉ (Mainprogram.handle_skip st s songTime now).2) ∧
    ((Mainprogram.debounce st now).1 = false →
      (Mainprogram.handle_skip st s songTime now).2 =
        if (s.song.getD 0 : ℤ) < (s.playlistlength : ℤ) - 1
        then [Cmd.next] else []) := by
  intro st s d now
  constructor
  · intro q hq
    cases hb : (Mainprogram.debounce st now).1
    · rw [handle_skip_accepted st s d now hb] at hq
      by_cases hs : (s.song.getD 0 : ℤ) < (s.playlistlength : ℤ) - 1 <;>
        simp [hs] at hq
    · rw [handle_skip_dropped st s d now hb] at hq
      simp at hq
  · intro hb
    rw [handle_skip_accepted st s d now hb]

/-- C10 witness: a concrete accepted skip press while playing with a
long-known track duration still issues `next`, not a seek. -/
theorem c10_witness :
    Cmd.seekcur 65 ∉
      (Mainprogram.handle_skip ⟨0⟩ ⟨PlayState.play, some 0, 3, 50⟩
        60 10).2 ∧
    (Mainprogram.handle_skip ⟨0⟩ ⟨PlayState.play, some 0, 3, 50⟩ 60 10).2
      = [Cmd.next] := by
  have h := c10_theorem ⟨0⟩ ⟨PlayState.play, some 0, 3, 50⟩ 60 10
  refine ⟨h.1 65, ?_⟩
  rw [h.2 (by norm_num [Mainprogram.debounce, Mainprogram.DEBOUNCE_MS])]
  norm_num
